import Mathlib

/-!
Verification of the `rms` research-management-system repository against its
natural-language specification.  Each definition below is a shallow embedding
of the corresponding Python source (file and symbol named in the doc
comments).  Numeric fields typed `float` in the source are modelled as `ℚ`
(every arithmetic step relevant to the claims is exact at the inputs
considered).  Network effects are modelled by passing the platform's response
(or a request→response oracle) as an explicit argument, and the requests a
routine issues are returned as data.
-/

namespace RMS

/-! ## JSON-ish values used by the configuration loader (`rms_api/config_helper.py`) -/

/-- A parsed JSON scalar as stored in a configuration mapping.  `jint` and
`jnum` mirror Python's distinct `int` and `float`; structured values the
loader never inspects are collapsed into `jother`. -/
inductive JValue where
  | jstr (s : String)
  | jint (n : Int)
  | jnum (q : ℚ)
  | jbool (b : Bool)
  | jnull
  | jother
  deriving DecidableEq, Repr

/-- A configuration mapping (Python `dict` from JSON object): association list
keyed by `String`; lookup returns the first binding. -/
abbrev ConfigDict := List (String × JValue)

/-- First-binding lookup in a configuration mapping. -/
def cfgLookup (d : ConfigDict) (k : String) : Option JValue :=
  match d with
  | [] => none
  | (k', v) :: rest => if k' = k then some v else cfgLookup rest k

/-- Python `dict.update`: keys already in `base` keep their position but take
`env`'s value; keys only in `env` are appended. -/
def dictUpdate (base env : ConfigDict) : ConfigDict :=
  (base.map fun p =>
    match cfgLookup env p.1 with
    | some v => (p.1, v)
    | none => p) ++
  env.filter fun p => (cfgLookup base p.1).isNone

/-- Errors raised by the configuration loader
(`config_helper.ConfigurationError`). -/
inductive ConfigError where
  | missingKey (k : String)
  | wrongType (k : String)
  deriving DecidableEq, Repr

/-- The `ConfigHelper._validate_config` (config_helper.py lines 73–109): `key` and
`url` must be `str`, `uuid` must be `int`; optional `timeout` must be `int` or
`float` when present. -/
def validate_config (config : ConfigDict) : Except ConfigError Unit := do
  -- required keys, in the source's iteration order: key (str), uuid (int), url (str)
  match cfgLookup config "key" with
  | none => throw (.missingKey "key")
  | some (.jstr _) => pure ()
  | some _ => throw (.wrongType "key")
  match cfgLookup config "uuid" with
  | none => throw (.missingKey "uuid")
  | some (.jint _) => pure ()
  | some _ => throw (.wrongType "uuid")
  match cfgLookup config "url" with
  | none => throw (.missingKey "url")
  | some (.jstr _) => pure ()
  | some _ => throw (.wrongType "url")
  -- optional key: timeout (int or float)
  match cfgLookup config "timeout" with
  | none => pure ()
  | some (.jint _) => pure ()
  | some (.jnum _) => pure ()
  | some _ => throw (.wrongType "timeout")

/-- The `ConfigHelper.load_and_validate_config` (config_helper.py lines 12–71),
with file I/O shallowly embedded: `config_path` carries the parsed contents of
the explicit config file when supplied; `base` carries the parsed contents of
`config_dir/rms_config.json`; `envFile` carries the parsed contents of
`config_dir/rms_config.<environment>.json` when that file exists.  When
`config_path` is supplied the function returns its validated contents without
consulting `base`/`envFile`; otherwise the environment file's keys are merged
over the base via `dict.update` before validation. -/
def load_and_validate_config (config_path : Option ConfigDict)
    (base : ConfigDict) (envFile : Option ConfigDict) :
    Except ConfigError ConfigDict :=
  match config_path with
  | some cfg => do
      validate_config cfg
      pure cfg
  | none =>
      let config :=
        match envFile with
        | some env => dictUpdate base env
        | none => base
      do
        validate_config config
        pure config

/-! ## Research data models (`research_creation_system/data_models.py`) -/

/-- The `IdeaStage` enumeration (data_models.py lines 15–21). -/
inductive IdeaStage where
  | idea | wip | pass_ | active | exit_
  deriving DecidableEq, Repr

/-- The string value of an `IdeaStage` member. -/
def IdeaStage.value : IdeaStage → String
  | .idea => "Idea"
  | .wip => "WIP"
  | .pass_ => "Pass"
  | .active => "Active"
  | .exit_ => "Exit"

/-- The `BuySellRec` enumeration (data_models.py lines 24–31). -/
inductive BuySellRec where
  | strongBuy | buy | hold | sell | strongSell | inactive
  deriving DecidableEq, Repr

/-- The string value of a `BuySellRec` member. -/
def BuySellRec.value : BuySellRec → String
  | .strongBuy => "Strong Buy"
  | .buy => "Buy"
  | .hold => "Hold"
  | .sell => "Sell"
  | .strongSell => "Strong Sell"
  | .inactive => "Inactive"

/-- The `InvestmentRecommendation` (data_models.py lines 92–109).  The
`InvestmentThemeTagList` theme is carried as its string value; the claims
never inspect it.  Float fields are modelled as `ℚ`. -/
structure InvestmentRecommendation where
  buy_sell_rec : BuySellRec
  idea_stage : IdeaStage
  esg_rating : String
  theme : String
  last_price : ℚ
  base_target : ℚ
  bull_target : ℚ
  bear_target : ℚ
  deriving DecidableEq, Repr

/-- Constructing an `InvestmentRecommendation`, including `__post_init__`
(data_models.py lines 104–109): a bull/bear target equal to `0.0` (the
dataclass default, i.e. the not-supplied sentinel) is replaced by
`base_target * 1.20` / `base_target * 0.80`. -/
def mkInvestmentRecommendation (buy_sell_rec : BuySellRec)
    (idea_stage : IdeaStage) (esg_rating theme : String)
    (last_price base_target : ℚ)
    (bull_target : ℚ := 0) (bear_target : ℚ := 0) :
    InvestmentRecommendation :=
  { buy_sell_rec := buy_sell_rec
    idea_stage := idea_stage
    esg_rating := esg_rating
    theme := theme
    last_price := last_price
    base_target := base_target
    bull_target := if bull_target = 0 then base_target * (12/10 : ℚ) else bull_target
    bear_target := if bear_target = 0 then base_target * (8/10 : ℚ) else bear_target }

/-- The `ModelHeader` (data_models.py lines 156–166).  `revision_date`'s
`datetime.now()` default is supplied by the caller of `mkModelHeader`. -/
structure ModelHeader where
  analyst_name : String
  note_type : String
  revision_date : String
  idea_stage : IdeaStage
  deriving DecidableEq, Repr

/-- The `ModelHeader` construction with `__post_init__`: an empty
`revision_date` is replaced by the current date (`now_ddbyy`, the
`%d-%b-%y` rendering of `datetime.now()`). -/
def mkModelHeader (now_ddbyy : String) (analyst_name : String)
    (note_type : String := "Company Model") (revision_date : String := "")
    (idea_stage : IdeaStage := .active) : ModelHeader :=
  { analyst_name := analyst_name
    note_type := note_type
    revision_date := if revision_date = "" then now_ddbyy else revision_date
    idea_stage := idea_stage }

/-- The `CompanyModelInfo` (data_models.py lines 169–177). -/
structure CompanyModelInfo where
  company_name : String
  model_date : String
  deriving DecidableEq, Repr

/-- The `CompanyModelInfo` construction with `__post_init__`: an empty
`model_date` is replaced by the current date (`now_mdY`, the `%m/%d/%Y`
rendering of `datetime.now()`). -/
def mkCompanyModelInfo (now_mdY : String) (company_name : String)
    (model_date : String := "") : CompanyModelInfo :=
  { company_name := company_name
    model_date := if model_date = "" then now_mdY else model_date }

/-- The `RecommendationData` (data_models.py lines 180–188). -/
structure RecommendationData where
  current_buy_sell_rec : BuySellRec
  current_ow_uw_rec : String := "OW"
  current_esg_rating : String := "Leading"
  previous_buy_sell_rec : Option BuySellRec := none
  previous_ow_uw_rec : String := ""
  previous_esg_rating : String := ""
  deriving DecidableEq, Repr

/-- The `ValuationScenarios` (data_models.py lines 191–196). -/
structure ValuationScenarios where
  base_case : String := "Base Case"
  bull_case : String := "Bull Case"
  bear_case : String := "Bear Case"
  deriving DecidableEq, Repr

/-- The `TargetPriceData` (data_models.py lines 199–221; its `__post_init__` is a
no-op `pass`). -/
structure TargetPriceData where
  base_target_px : ℚ
  base_probability : ℚ := 65/100
  base_exp_return : ℚ := 0
  bull_target_px : Option ℚ := none
  bull_probability : ℚ := 25/100
  bull_exp_return : ℚ := 0
  bear_target_px : Option ℚ := none
  bear_probability : ℚ := 10/100
  bear_exp_return : ℚ := 0
  deriving DecidableEq, Repr

/-- The `FinancialMetric` (data_models.py lines 224–228): metric name plus a
year→value mapping; values may be numeric or free text. -/
structure FinancialMetric where
  metric_name : String
  values : List (String × JValue)
  deriving DecidableEq, Repr

/-- The `FinancialsData` (data_models.py lines 231–235). -/
structure FinancialsData where
  years : List String
  metrics : List FinancialMetric
  deriving DecidableEq, Repr

/-- The `CompanyModelData` (data_models.py lines 238–248).  `financials` is
`Option` because `CompanyModelTemplateData.financials_data` (its only
producer in the source) is `Optional[FinancialsData]`. -/
structure CompanyModelData where
  header : ModelHeader
  company_info : CompanyModelInfo
  recommendation : RecommendationData
  valuation_scenarios : ValuationScenarios
  target_price : TargetPriceData
  financials : Option FinancialsData
  investment_thesis : String := ""
  model_assumptions : String := ""
  deriving DecidableEq, Repr

/-- The `CompanyInfo` (data_models.py lines 79–89). -/
structure CompanyInfo where
  name : String
  country : String
  analyst : String
  gics_sector : String
  gics_industry_group : String
  gics_industry : String
  gics_sub_industry : String
  update_date : String
  deriving DecidableEq, Repr

/-! ## Company model template
(`research_creation_system/templates/company_model_template.py`) -/

/-- The `CompanyModelTemplateData` (company_model_template.py lines 30–61); the
`__post_init__` defaulting of `analyst_name`/`investment_thesis`/
`model_assumptions` happens at construction and is immaterial to the stored
shape. -/
structure CompanyModelTemplateData where
  company_info : CompanyInfo
  recommendation : InvestmentRecommendation
  analyst_name : String := ""
  note_type : String := "Company Model"
  idea_stage : IdeaStage := .active
  investment_thesis : String := ""
  model_assumptions : String := ""
  financials_data : Option FinancialsData := none
  base_probability : ℚ := 65/100
  bull_probability : ℚ := 25/100
  bear_probability : ℚ := 10/100
  deriving DecidableEq, Repr

/-- The `CompanyModelTemplateData.to_company_model_data`
(company_model_template.py lines 63–118).  The two `datetime.now()` renderings
used by the nested dataclass defaults are passed explicitly (`now_ddbyy`,
`now_mdY`).  `getattr(self.recommendation, 'ow_uw_rec', 'OW')` always yields
`"OW"` since `InvestmentRecommendation` has no `ow_uw_rec` attribute.
Expected returns: `(target − last_price) / last_price` per scenario when
`last_price > 0`, else all three are `0.0`. -/
def CompanyModelTemplateData.to_company_model_data
    (self : CompanyModelTemplateData) (now_ddbyy now_mdY : String) :
    CompanyModelData :=
  let header := mkModelHeader now_ddbyy self.analyst_name self.note_type ""
    self.idea_stage
  let company_model_info := mkCompanyModelInfo now_mdY self.company_info.name
  let recommendation_data : RecommendationData :=
    { current_buy_sell_rec := self.recommendation.buy_sell_rec
      current_ow_uw_rec := "OW"
      current_esg_rating := self.recommendation.esg_rating }
  let valuation_scenarios : ValuationScenarios := {}
  let base_return :=
    if self.recommendation.last_price > 0 then
      (self.recommendation.base_target - self.recommendation.last_price) /
        self.recommendation.last_price
    else 0
  let bull_return :=
    if self.recommendation.last_price > 0 then
      (self.recommendation.bull_target - self.recommendation.last_price) /
        self.recommendation.last_price
    else 0
  let bear_return :=
    if self.recommendation.last_price > 0 then
      (self.recommendation.bear_target - self.recommendation.last_price) /
        self.recommendation.last_price
    else 0
  let target_price : TargetPriceData :=
    { base_target_px := self.recommendation.base_target
      base_probability := self.base_probability
      base_exp_return := base_return
      bull_target_px := some self.recommendation.bull_target
      bull_probability := self.bull_probability
      bull_exp_return := bull_return
      bear_target_px := some self.recommendation.bear_target
      bear_probability := self.bear_probability
      bear_exp_return := bear_return }
  { header := header
    company_info := company_model_info
    recommendation := recommendation_data
    valuation_scenarios := valuation_scenarios
    target_price := target_price
    financials := self.financials_data
    investment_thesis := self.investment_thesis
    model_assumptions := self.model_assumptions }

/-! ## Platform wire entities (`rms_api/NotePublisher.py` lines 34–131)

Pydantic models with `extra = 'forbid'`.  An item arriving from the platform
is a JSON object whose values (for the fields these models declare) are
strings or null; `PValue` models such a value and `EDict` such an object.
Construction from keyword arguments (`Model(**item)`) is embedded as
`fromDict`; pydantic collects all validation errors and raises if any — our
`Except String` model errors exactly when pydantic raises. -/

/-- A value in a platform entity item. -/
inductive PValue where
  | pstr (s : String)
  | pnull
  deriving DecidableEq, Repr

/-- A platform entity item (JSON object / Python kwargs dict). -/
abbrev EDict := List (String × PValue)

/-- First-binding lookup in an entity item. -/
def elookup (d : EDict) (k : String) : Option PValue :=
  match d with
  | [] => none
  | (k', v) :: rest => if k' = k then some v else elookup rest k

/-- Python `item[k] = v`: replace the binding if present, else append. -/
def edictSet (d : EDict) (k : String) (v : PValue) : EDict :=
  if (elookup d k).isSome then
    d.map fun p => if p.1 = k then (k, v) else p
  else d ++ [(k, v)]

/-- ASCII upper-casing (Python `str.upper` restricted to ASCII, which is all
the source ever feeds it), written over the character list. -/
def pyUpper (s : String) : String := ⟨s.data.map Char.toUpper⟩

/-- The five field names shared by every `BaseEntity`-derived model. -/
def entityFieldNames : List String :=
  ["description", "key", "metadata", "subtype", "type"]

/-- Pydantic `extra = 'forbid'`: any key outside the model's declared fields
makes construction fail. -/
def checkNoExtra (d : EDict) : Except String Unit :=
  if d.all (fun p => entityFieldNames.contains p.1) then pure ()
  else throw "extra inputs are not permitted"

/-- Required `str` field: missing or null fails validation. -/
def getStrField (d : EDict) (k : String) : Except String String :=
  match elookup d k with
  | some (.pstr s) => pure s
  | some .pnull => throw (k ++ ": input should be a valid string")
  | none => throw (k ++ ": field required")

/-- The `Optional[str] = None` field: missing or null yields `none`. -/
def getOptStrField (d : EDict) (k : String) : Option String :=
  match elookup d k with
  | some (.pstr s) => some s
  | some .pnull => none
  | none => none

/-- The `Optional[Literal[lit]] = None` field. -/
def getOptLiteralField (d : EDict) (k lit : String) :
    Except String (Option String) :=
  match elookup d k with
  | some (.pstr s) => if s = lit then pure (some s)
      else throw (k ++ ": input should be " ++ lit ++ " or None")
  | some .pnull => pure none
  | none => pure none

/-- The `Literal[lit] = lit` field (fixed value with default). -/
def getLiteralField (d : EDict) (k lit : String) : Except String String :=
  match elookup d k with
  | some (.pstr s) => if s = lit then pure s
      else throw (k ++ ": input should be " ++ lit)
  | some .pnull => throw (k ++ ": input should be " ++ lit)
  | none => pure lit

/-- Required `Literal[...]` field drawn from several options (no default). -/
def getLiteralChoiceField (d : EDict) (k : String) (lits : List String) :
    Except String String :=
  match elookup d k with
  | some (.pstr s) => if lits.contains s then pure s
      else throw (k ++ ": input should be one of the permitted literals")
  | some .pnull => throw (k ++ ": input should be one of the permitted literals")
  | none => throw (k ++ ": field required")

/-- The `CMTY` (NotePublisher.py lines 73–83): community entity. -/
structure CMTY where
  description : String
  key : String
  metadata : Option String
  subtype : Option String
  type : String
  deriving DecidableEq, Repr

/-- The `CMTY(**item)`: extra-field check, field validation
(`subtype : Optional[Literal['WORKGROUP']]`, `type : Literal["COMMUNITIES"]`),
then the `validate_subtype` field validator (upper-cases a present subtype;
rejects values other than `'WORKGROUP'`, redundantly after the literal
check). -/
def CMTY.fromDict (d : EDict) : Except String CMTY := do
  checkNoExtra d
  let description ← getStrField d "description"
  let key ← getStrField d "key"
  let metadata := getOptStrField d "metadata"
  let subtype ← getOptLiteralField d "subtype" "WORKGROUP"
  let type_ ← getLiteralField d "type" "COMMUNITIES"
  let subtype ← match subtype with
    | some v =>
        if v ≠ "WORKGROUP" then
          throw ("Invalid subtype: " ++ v ++ ". Must be 'WORKGROUP' or None")
        else
          pure (some (pyUpper v))
    | none => pure (none : Option String)
  pure { description := description, key := key, metadata := metadata,
         subtype := subtype, type := type_ }

/-- The `BBG_USER` (NotePublisher.py lines 86–107): user entity. -/
structure BBG_USER where
  description : String
  key : String
  metadata : Option String
  subtype : Option String
  type : String
  deriving DecidableEq, Repr

/-- Validation of the `subtype : Optional[Literal['UUID']]` field of
`BBG_USER`, including the normalizing `normalize_subtype` validator. -/
def checkSubtypeUUID : Option String → Except String (Option String)
  | some s =>
      if s = "UUID" then pure (some (pyUpper s))
      else throw "subtype: input should be UUID or None"
  | none => pure none

/-- Field-level `BBG_USER` construction (`BBG_USER(description=…, …)`):
pydantic validates `subtype : Optional[Literal['UUID']]` and
`type : Literal['WORKGROUPS','PEOPLE','AUTHORS']`, runs the normalizing
field validators (`.upper()`, identity after the literal checks), then the
`validate_type_subtype_combination` model validator (NotePublisher.py lines
101–107). -/
def validate_BBG_USER (description key : String) (metadata : Option String)
    (type_ : String) (subtype : Option String) : Except String BBG_USER := do
  if ¬ (["WORKGROUPS", "PEOPLE", "AUTHORS"].contains type_) then
    throw "type: input should be one of the permitted literals"
  let subtype ← checkSubtypeUUID subtype
  let type_ := pyUpper type_
  if type_ = "WORKGROUPS" ∧ subtype ≠ some "UUID" then
    throw "WORKGROUPS type requires 'UUID' subtype"
  if (type_ = "PEOPLE" ∨ type_ = "AUTHORS") ∧ subtype ≠ none then
    throw (type_ ++ " type requires subtype to be None")
  pure { description := description, key := key, metadata := metadata,
         subtype := subtype, type := type_ }

/-- The `BBG_USER(**item)`. -/
def BBG_USER.fromDict (d : EDict) : Except String BBG_USER := do
  checkNoExtra d
  let description ← getStrField d "description"
  let key ← getStrField d "key"
  let metadata := getOptStrField d "metadata"
  let subtype ← getOptLiteralField d "subtype" "UUID"
  let type_ ← getLiteralChoiceField d "type" ["WORKGROUPS", "PEOPLE", "AUTHORS"]
  validate_BBG_USER description key metadata type_ subtype

/-- The `BBG_SPDL` (NotePublisher.py lines 110–113). -/
structure BBG_SPDL where
  description : String
  key : String
  metadata : Option String
  subtype : String
  type : String
  deriving DecidableEq, Repr

/-- The `BBG_SPDL(**item)`. -/
def BBG_SPDL.fromDict (d : EDict) : Except String BBG_SPDL := do
  checkNoExtra d
  let description ← getStrField d "description"
  let key ← getStrField d "key"
  let metadata := getOptStrField d "metadata"
  let subtype ← getLiteralField d "subtype" "SPDL"
  let type_ ← getLiteralField d "type" "SHAREABLES"
  pure { description := description, key := key, metadata := metadata,
         subtype := subtype, type := type_ }

/-- The `TAGLIST` (NotePublisher.py lines 116–119). -/
structure TAGLIST where
  description : String
  key : String
  metadata : Option String
  subtype : String
  type : String
  deriving DecidableEq, Repr

/-- The `TAGLIST(**item)`. -/
def TAGLIST.fromDict (d : EDict) : Except String TAGLIST := do
  checkNoExtra d
  let description ← getStrField d "description"
  let key ← getStrField d "key"
  let metadata := getOptStrField d "metadata"
  let subtype ← getLiteralField d "subtype" "TAGLISTS"
  let type_ ← getLiteralField d "type" "CUSTOM"
  pure { description := description, key := key, metadata := metadata,
         subtype := subtype, type := type_ }

/-- The `NOTE_SECURITY` (NotePublisher.py lines 122–130). -/
structure NOTE_SECURITY where
  description : String
  key : String
  metadata : Option String
  subtype : Option String
  type : String
  deriving DecidableEq, Repr

/-- The `NOTE_SECURITY(**item)`: `subtype : Optional[Literal['CORP']]` with the
upper-casing `normalize_subtype` validator, `type : Literal["SECURITIES"]`. -/
def NOTE_SECURITY.fromDict (d : EDict) : Except String NOTE_SECURITY := do
  checkNoExtra d
  let description ← getStrField d "description"
  let key ← getStrField d "key"
  let metadata := getOptStrField d "metadata"
  let subtype ← getOptLiteralField d "subtype" "CORP"
  let type_ ← getLiteralField d "type" "SECURITIES"
  let subtype := subtype.map pyUpper
  pure { description := description, key := key, metadata := metadata,
         subtype := subtype, type := type_ }

/-! ## Validated client configuration and HTTP requests -/

/-- A validated configuration as consumed by the four clients: `key` (session
token), `uuid` (integer user id), `url` (platform base URL). -/
structure RmsConfig where
  key : String
  uuid : Int
  url : String
  deriving DecidableEq, Repr

/-- An outbound HTTP request, as method plus full URL (query string
included). -/
structure HttpRequest where
  method : String
  url : String
  deriving DecidableEq, Repr

/-- The synchronizer endpoint's JSON response body. -/
structure SyncTokens where
  synchronizerToken : String
  synchronizerUri : String
  deriving DecidableEq, Repr

/-- Does `cs` start with `sub`? -/
def startsWithList : List Char → List Char → Bool
  | _, [] => true
  | [], _ :: _ => false
  | c :: cs, d :: ds => c == d && startsWithList cs ds

/-- Does `sub` occur as a contiguous run inside `cs`? -/
def containsSubList (cs sub : List Char) : Bool :=
  startsWithList cs sub ||
    match cs with
    | [] => false
    | _ :: rest => containsSubList rest sub

/-- Python `sub in s` substring test (used for `'ClipServ' in self._url`). -/
def strContains (s sub : String) : Bool :=
  containsSubList s.data sub.data

/-! ## Client construction handshakes (`RMSBQL.py`, `DocumentRetriever.py`,
`CDEUploader.py`, `NotePublisher.py`)

Each client's constructor loads/validates configuration and then runs its
credential-building routine.  We embed that routine as (a) the list of HTTP
requests it issues and (b) the state it stores, with the synchronizer
response passed in explicitly where one is requested. -/

/-- The state `RMSBQL.__buildCredentials` (RMSBQL.py lines 199–226) stores:
the api key, uuid and url from the configuration, plus the session cookie
header.  It stores no synchronizer token or URI. -/
structure RMSBQLState where
  apiKey : String
  uuid : Int
  url : String
  cookieHeader : String
  deriving DecidableEq, Repr

/-- HTTP requests issued by `RMSBQL.__buildCredentials` (RMSBQL.py lines
199–226): none — the active implementation only extracts config values and
updates the session's cookie header (the synchronizer call exists only in a
commented-out legacy variant). -/
def RMSBQL_constructionRequests (_cfg : RmsConfig) : List HttpRequest := []

/-- State stored by `RMSBQL.__buildCredentials`. -/
def RMSBQL_init (cfg : RmsConfig) : RMSBQLState :=
  { apiKey := cfg.key
    uuid := cfg.uuid
    url := cfg.url
    cookieHeader := "BBCLIPSESSION=" ++ cfg.key }

/-- State stored by `DocumentRetriever.__buildCredentials`
(DocumentRetriever.py lines 228–271): config values plus the synchronizer
token/URI from the GET response. -/
structure DocumentRetrieverState where
  apiKey : String
  uuid : Int
  url : String
  synchronizerToken : String
  synchronizerUri : String
  deriving DecidableEq, Repr

/-- HTTP requests issued by `DocumentRetriever.__buildCredentials`: a single
GET to `{url}upload/synchronizer` (DocumentRetriever.py lines 253–256). -/
def DocumentRetriever_constructionRequests (cfg : RmsConfig) : List HttpRequest :=
  [{ method := "GET", url := cfg.url ++ "upload/synchronizer" }]

/-- State stored by `DocumentRetriever.__buildCredentials` given the
synchronizer response. -/
def DocumentRetriever_init (cfg : RmsConfig) (tokens : SyncTokens) :
    DocumentRetrieverState :=
  { apiKey := cfg.key
    uuid := cfg.uuid
    url := cfg.url
    synchronizerToken := tokens.synchronizerToken
    synchronizerUri := tokens.synchronizerUri }

/-- State stored by `CDEUploader.__buildCredentials` (CDEUploader.py lines
178–200). -/
structure CDEUploaderState where
  apiKey : String
  uuid : Int
  url : String
  synchronizerToken : String
  synchronizerUri : String
  deriving DecidableEq, Repr

/-- HTTP requests issued by `CDEUploader.__buildCredentials`: a single GET to
`{url}/upload/synchronizer` (CDEUploader.py lines 189–192). -/
def CDEUploader_constructionRequests (cfg : RmsConfig) : List HttpRequest :=
  [{ method := "GET", url := cfg.url ++ "/upload/synchronizer" }]

/-- State stored by `CDEUploader.__buildCredentials` given the synchronizer
response. -/
def CDEUploader_init (cfg : RmsConfig) (tokens : SyncTokens) :
    CDEUploaderState :=
  { apiKey := cfg.key
    uuid := cfg.uuid
    url := cfg.url
    synchronizerToken := tokens.synchronizerToken
    synchronizerUri := tokens.synchronizerUri }

/-- Python `s.endswith('/')`. -/
def endsWithSlash (s : String) : Bool :=
  s.data.getLast? == some '/'

/-- The `NotePublisher._authenticate` (NotePublisher.py lines 189–223) first
normalizes the configured URL to end with `'/'`. -/
def np_normalized_url (url : String) : String :=
  if endsWithSlash url then url else url ++ "/"

/-- The synchronizer URL `NotePublisher._authenticate` targets: the
`ClipServ` routing segment is inserted unless the configured URL already
contains it (NotePublisher.py lines 206–210). -/
def np_sync_url (url : String) : String :=
  let u := np_normalized_url url
  if strContains u "ClipServ" then u ++ "upload/synchronizer"
  else u ++ "ClipServ/upload/synchronizer"

/-- State stored by `NotePublisher._authenticate`: api key, uuid, normalized
url, and the credentials mapping (synchronizer token/URI plus uuid). -/
structure NotePublisherState where
  apiKey : String
  uuid : Int
  url : String
  synchronizer_token : String
  synchronizer_uri : String
  deriving DecidableEq, Repr

/-- HTTP requests issued by `NotePublisher._authenticate`: a single GET to
`np_sync_url` (NotePublisher.py line 212). -/
def NotePublisher_constructionRequests (cfg : RmsConfig) : List HttpRequest :=
  [{ method := "GET", url := np_sync_url cfg.url }]

/-- State stored by `NotePublisher._authenticate` given the synchronizer
response. -/
def NotePublisher_init (cfg : RmsConfig) (tokens : SyncTokens) :
    NotePublisherState :=
  { apiKey := cfg.key
    uuid := cfg.uuid
    url := np_normalized_url cfg.url
    synchronizer_token := tokens.synchronizerToken
    synchronizer_uri := tokens.synchronizerUri }

/-! ## `find_corp_ticker` (`NotePublisher.py` lines 523–554) -/

/-- Accumulator-based whitespace splitter: `acc` holds the current token's
characters in reverse. -/
def splitWsAux : List Char → List Char → List String
  | [], acc => if acc.isEmpty then [] else [⟨acc.reverse⟩]
  | c :: rest, acc =>
      if c.isWhitespace then
        if acc.isEmpty then splitWsAux rest []
        else (⟨acc.reverse⟩ : String) :: splitWsAux rest []
      else splitWsAux rest (c :: acc)

/-- Python `str.split()` with no argument: split on whitespace runs,
discarding empty pieces. -/
def pySplit (s : String) : List String :=
  splitWsAux s.data []

/-- Python exceptions distinguished by `find_corp_ticker`: the
`ValidationError` raised for a malformed ticker, the `IndexError` from list
indexing, and a pydantic validation failure from entity construction. -/
inductive PyError where
  | validationError (msg : String)
  | indexError
  | pydanticError (msg : String)
  deriving DecidableEq, Repr

/-- NotePublisher.py lines 533–544: normalize the ticker to upper case,
format-validate it, and extract the base ticker.  Returns
`(normalized ticker, base ticker)`.  `ticker_parts[0]`/`ticker_parts[1]` out
of range is a Python `IndexError`, not the `ValidationError` of the format
check. -/
def corp_ticker_base (ticker : String) : Except PyError (String × String) :=
  let t := pyUpper ticker
  let parts := pySplit t
  if parts.length > 2 ∨ (parts.length = 2 ∧ ¬ parts.contains "CORP") then
    .error (.validationError "Invalid corp ticker format. Use 'TICKER' or 'TICKER CORP'")
  else
    match parts with
    | [] => .error .indexError
    | p0 :: rest =>
        if p0 ≠ "CORP" then .ok (t, p0)
        else
          match rest with
          | [] => .error .indexError
          | p1 :: _ => .ok (t, p1)

/-- The result-scanning loop of `find_corp_ticker` (NotePublisher.py lines
548–554): the first item whose `metadata` equals the base ticker and whose
`subtype` is `'CORP'` has its `type` set and is built into a
`NOTE_SECURITY`; a pydantic failure there propagates. -/
def corp_ticker_scan (base_ticker : String) :
    List EDict → Except PyError (Option NOTE_SECURITY)
  | [] => pure none
  | item :: rest =>
      if elookup item "metadata" = some (.pstr base_ticker) ∧
         elookup item "subtype" = some (.pstr "CORP") then
        match NOTE_SECURITY.fromDict (edictSet item "type" (.pstr "SECURITIES")) with
        | .ok sec => pure (some sec)
        | .error e => throw (.pydanticError e)
      else
        corp_ticker_scan base_ticker rest

/-- The `NotePublisher.find_corp_ticker` (NotePublisher.py lines 523–554), with
the entity-search network call embedded as an oracle `search` from search
term to result items. -/
def find_corp_ticker (search : String → List EDict) (ticker : String) :
    Except PyError (Option NOTE_SECURITY) := do
  let (t, base_ticker) ← corp_ticker_base ticker
  corp_ticker_scan base_ticker (search t)

/-! ## JSON serialization and percent-encoding, as used by `create_note`
(`json.dumps` with default options; `urllib.parse.quote` with default
`safe='/'`). -/

/-- A Python value serializable by `json.dumps`, restricted to the shapes the
note payload uses. -/
inductive PyJson where
  | str (s : String)
  | int (n : Int)
  | bool (b : Bool)
  | null
  | arr (xs : List PyJson)
  | obj (fields : List (String × PyJson))

/-- Four lowercase hex digits (as `json.dumps` writes `\uXXXX` escapes). -/
def hex4 (n : Nat) : String :=
  let dig := fun (k : Nat) => String.singleton (Nat.digitChar (k % 16))
  dig (n / 4096) ++ dig (n / 256) ++ dig (n / 16) ++ dig n

/-- The `json.dumps` escaping of one character with the default
`ensure_ascii=True`: `"`/`\` and the short control escapes use backslash
forms, every other non-printable-ASCII character becomes `\uXXXX`
(a surrogate pair for astral codepoints). -/
def jsonEscapeChar (c : Char) : String :=
  if c = '"' then "\\\""
  else if c = '\\' then "\\\\"
  else if c = '\n' then "\\n"
  else if c = '\r' then "\\r"
  else if c = '\t' then "\\t"
  else if c.toNat = 8 then "\\b"
  else if c.toNat = 12 then "\\f"
  else if c.toNat < 32 ∨ c.toNat > 126 then
    if c.toNat < 65536 then "\\u" ++ hex4 c.toNat
    else
      let v := c.toNat - 65536
      "\\u" ++ hex4 (55296 + v / 1024) ++ "\\u" ++ hex4 (56320 + v % 1024)
  else String.singleton c

/-- The `json.dumps` of a string. -/
def jsonDumpsString (s : String) : String :=
  "\"" ++ String.join (s.data.map jsonEscapeChar) ++ "\""

mutual

/-- The `json.dumps` with default separators `", "` / `": "`. -/
def PyJson.dumps : PyJson → String
  | .str s => jsonDumpsString s
  | .int n => toString n
  | .bool b => if b then "true" else "false"
  | .null => "null"
  | .arr xs => "[" ++ PyJson.dumpsList xs ++ "]"
  | .obj fs => "\x7b" ++ PyJson.dumpsObj fs ++ "\x7d"

/-- Comma-joined array elements. -/
def PyJson.dumpsList : List PyJson → String
  | [] => ""
  | [x] => x.dumps
  | x :: y :: rest => x.dumps ++ ", " ++ PyJson.dumpsList (y :: rest)

/-- Comma-joined object members. -/
def PyJson.dumpsObj : List (String × PyJson) → String
  | [] => ""
  | [(k, v)] => jsonDumpsString k ++ ": " ++ v.dumps
  | (k, v) :: m :: rest =>
      jsonDumpsString k ++ ": " ++ v.dumps ++ ", " ++ PyJson.dumpsObj (m :: rest)

end

/-- UTF-8 encoding of one character, as byte values. -/
def utf8Bytes (c : Char) : List Nat :=
  let n := c.toNat
  if n < 128 then [n]
  else if n < 2048 then [192 + n / 64, 128 + n % 64]
  else if n < 65536 then [224 + n / 4096, 128 + (n / 64) % 64, 128 + n % 64]
  else [240 + n / 262144, 128 + (n / 4096) % 64, 128 + (n / 64) % 64, 128 + n % 64]

/-- Is this byte left unescaped by `urllib.parse.quote` with the default
`safe='/'`?  Unreserved characters (alphanumerics and `_.-~`) plus `/`. -/
def quoteSafeByte (b : Nat) : Bool :=
  (65 ≤ b ∧ b ≤ 90) ∨ (97 ≤ b ∧ b ≤ 122) ∨ (48 ≤ b ∧ b ≤ 57) ∨
  b = 95 ∨ b = 46 ∨ b = 45 ∨ b = 126 ∨ b = 47

/-- One uppercase hex digit (percent-encoding uses uppercase). -/
def hexDigitUpper (n : Nat) : Char :=
  if n < 10 then Char.ofNat (48 + n) else Char.ofNat (55 + n)

/-- Percent-encode one byte. -/
def quoteByte (b : Nat) : String :=
  if quoteSafeByte b then String.singleton (Char.ofNat b)
  else "%" ++ String.singleton (hexDigitUpper (b / 16)) ++
    String.singleton (hexDigitUpper (b % 16))

/-- The `urllib.parse.quote(s)` with defaults: UTF-8 encode, percent-encode every
non-safe byte. -/
def pyQuote (s : String) : String :=
  String.join ((s.data.flatMap utf8Bytes).map quoteByte)

/-! ## `create_note` (`NotePublisher.py` lines 556–633) -/

/-- The tag/shareable entities `create_note` serializes
(`tag.model_dump()`). -/
inductive WireEntity where
  | cmty (c : CMTY)
  | user (u : BBG_USER)
  | spdl (s : BBG_SPDL)
  | taglist (t : TAGLIST)
  | security (s : NOTE_SECURITY)
  deriving DecidableEq, Repr

/-- An optional string as JSON (`None` → `null`). -/
def optStrJson : Option String → PyJson
  | some s => .str s
  | none => .null

/-- Pydantic `model_dump()` of a wire entity: every declared field, in
field-definition order (base-class fields `description`, `key`, `metadata`
first, then `subtype`, `type`). -/
def WireEntity.model_dump : WireEntity → PyJson
  | .cmty c => .obj [("description", .str c.description), ("key", .str c.key),
      ("metadata", optStrJson c.metadata), ("subtype", optStrJson c.subtype),
      ("type", .str c.type)]
  | .user u => .obj [("description", .str u.description), ("key", .str u.key),
      ("metadata", optStrJson u.metadata), ("subtype", optStrJson u.subtype),
      ("type", .str u.type)]
  | .spdl s => .obj [("description", .str s.description), ("key", .str s.key),
      ("metadata", optStrJson s.metadata), ("subtype", .str s.subtype),
      ("type", .str s.type)]
  | .taglist t => .obj [("description", .str t.description), ("key", .str t.key),
      ("metadata", optStrJson t.metadata), ("subtype", .str t.subtype),
      ("type", .str t.type)]
  | .security s => .obj [("description", .str s.description), ("key", .str s.key),
      ("metadata", optStrJson s.metadata), ("subtype", optStrJson s.subtype),
      ("type", .str s.type)]

/-- The note payload `create_note` builds (NotePublisher.py lines 591–602).
`attachment_ids` are the ids collected from `prepare_attachment` for the
supplied file paths. -/
def create_note_payload (title body : String) (as_of_date : Int)
    (tags share_with : List WireEntity) (attachment_ids : List String)
    (html_body : Option String) : PyJson :=
  .obj ([("title", .str title), ("body", .str body), ("date", .int as_of_date),
    ("tags", .arr (tags.map WireEntity.model_dump)),
    ("shareables", .arr (share_with.map WireEntity.model_dump)),
    ("attachments", .arr (attachment_ids.map .str))] ++
    (match html_body with
     | some h => [("htmlBody", .str h)]
     | none => []))

/-- The endpoint URL for note creation (NotePublisher.py lines 608–612). -/
def create_note_base_url (url : String) : String :=
  if strContains url "ClipServ" then url ++ "upload/createNote"
  else url ++ "ClipServ/upload/createNote"

/-- The single HTTP request `create_note` issues for the note-creation call
(NotePublisher.py lines 604–622): the JSON payload is percent-encoded into
the URL's query string together with `uuid` and the synchronizer token/URI,
and the request is sent with `session.post`. -/
def create_note_request (st : NotePublisherState) (title body : String)
    (as_of_date : Int) (tags share_with : List WireEntity)
    (attachment_ids : List String) (html_body : Option String) : HttpRequest :=
  let encoded_data := pyQuote
    (create_note_payload title body as_of_date tags share_with attachment_ids
      html_body).dumps
  { method := "POST"
    url := create_note_base_url st.url ++ "?" ++
      "uuid=" ++ toString st.uuid ++ "&" ++
      "doc=" ++ encoded_data ++ "&" ++
      "SYNCHRONIZER_TOKEN=" ++ st.synchronizer_token ++ "&" ++
      "SYNCHRONIZER_URI=" ++ st.synchronizer_uri }

/-! ## CDE batch upload (`rms_api/CDEUploader.py`) -/

/-- One row of the input dataframe, restricted to the four required columns
(`parsekey`, `field`, `date`, `value`); `value` may be any JSON-able
scalar. -/
structure CDERow where
  parsekey : String
  field : String
  date : String
  value : JValue
  deriving DecidableEq, Repr

/-- The input dataframe: its column-name list (which may name further
columns) and its rows. -/
structure DataFrame where
  columns : List String
  rows : List CDERow
  deriving DecidableEq, Repr

/-- The form body `CDEUploader._build_request_body` produces (CDEUploader.py
lines 242–253). -/
structure CDERequestBody where
  uuid : Int
  synchronizerToken : String
  synchronizerUri : String
  parsekey : String
  field : String
  date : String
  value : JValue
  deriving DecidableEq, Repr

/-- The `CDEUploader._build_request_body`. -/
def build_request_body (st : CDEUploaderState) (row : CDERow) : CDERequestBody :=
  { uuid := st.uuid
    synchronizerToken := st.synchronizerToken
    synchronizerUri := st.synchronizerUri
    parsekey := row.parsekey
    field := row.field
    date := row.date
    value := row.value }

/-- The `CDEUploadResult` (CDEUploader.py lines 14–25), minus the raw
`requests.Response` object. -/
structure CDEUploadResult where
  parsekey : String
  field : String
  value : JValue
  date : String
  success : Bool
  error_message : Option String
  deriving DecidableEq, Repr

/-- The `CDEUploader.upload_single_cde` (CDEUploader.py lines 268–289), with the
network embedded as an oracle `net` mapping a request body to either a
successful response (`.ok`) or the text of the raised exception (`.error`).
Every raised exception is caught and converted into a failed result. -/
def upload_single_cde (net : CDERequestBody → Except String Unit)
    (data : CDERequestBody) : CDEUploadResult :=
  match net data with
  | .ok _ =>
      { parsekey := data.parsekey, field := data.field, value := data.value,
        date := data.date, success := true, error_message := none }
  | .error e =>
      { parsekey := data.parsekey, field := data.field, value := data.value,
        date := data.date, success := false, error_message := some e }

/-- Slicing a list into consecutive chunks of size `b + 1`
(`[df[i:i + batch_size] for i in range(0, len(df), batch_size)]` with
`batch_size = b + 1`). -/
def chunksPos (b : Nat) : List α → List (List α)
  | [] => []
  | x :: xs => (x :: xs.take b) :: chunksPos b (xs.drop b)
  termination_by l => l.length
  decreasing_by
    simp only [List.length_drop, List.length_cons]
    omega

/-- The `CDEUploader.batch_upload_cde` (CDEUploader.py lines 384–452).  The
required-columns precondition raises `ValueError` before any work; slicing
with `batch_size = 0` raises Python's `range() arg 3 must not be zero`;
`ThreadPoolExecutor(max_workers=0)` raises when the first batch is processed.
Batches run strictly sequentially; within a batch the worker pool yields one
result per row in completion order, so the collected results are modelled as
the multiset sum over batches of the per-row results. -/
def batch_upload_cde (net : CDERequestBody → Except String Unit)
    (st : CDEUploaderState) (df : DataFrame)
    (max_workers : Nat := 20) (batch_size : Nat := 50) :
    Except String (Multiset CDEUploadResult) :=
  if ¬ (["parsekey", "field", "date", "value"].all fun col =>
      df.columns.contains col) then
    .error "DataFrame must contain columns: \x7b'parsekey', 'field', 'date', 'value'\x7d"
  else if batch_size = 0 then
    .error "range() arg 3 must not be zero"
  else
    let batches := chunksPos (batch_size - 1) df.rows
    if max_workers = 0 ∧ batches ≠ [] then
      .error "max_workers must be greater than 0"
    else
      .ok (batches.map fun batch =>
        ((batch.map fun row => upload_single_cde net (build_request_body st row) :
          List CDEUploadResult) : Multiset CDEUploadResult)).sum

/-! ## Supporting lemmas -/

/-- Lookup distributes over append, first list first. -/
theorem cfgLookup_append (l₁ l₂ : ConfigDict) (k : String) :
    cfgLookup (l₁ ++ l₂) k =
      match cfgLookup l₁ k with
      | some v => some v
      | none => cfgLookup l₂ k := by
  induction l₁ with
  | nil => simp [cfgLookup]
  | cons p rest ih =>
      obtain ⟨k', v⟩ := p
      by_cases h : k' = k <;> simp [cfgLookup, h, ih]

/-- Lookup in the value-replaced base part of `dictUpdate`. -/
theorem cfgLookup_map_update (base env : ConfigDict) (k : String) :
    cfgLookup (base.map fun p =>
      match cfgLookup env p.1 with
      | some v => (p.1, v)
      | none => p) k =
      match cfgLookup base k with
      | some v => some ((cfgLookup env k).getD v)
      | none => none := by
  induction base with
  | nil => simp [cfgLookup]
  | cons p rest ih =>
      obtain ⟨k', v⟩ := p
      by_cases h : k' = k
      · subst h
        cases he : cfgLookup env k' <;> simp [cfgLookup, he]
      · cases he : cfgLookup env k' <;> simp [cfgLookup, he, h, ih]

/-- Lookup in the appended-new-keys part of `dictUpdate`. -/
theorem cfgLookup_filter_new (base env : ConfigDict) (k : String)
    (hb : cfgLookup base k = none) :
    cfgLookup (env.filter fun p => (cfgLookup base p.1).isNone) k =
      cfgLookup env k := by
  induction env with
  | nil => simp [cfgLookup]
  | cons p rest ih =>
      obtain ⟨k', v⟩ := p
      by_cases h : k' = k
      · subst h
        simp [cfgLookup, hb, List.filter]
      · cases hbk' : cfgLookup base k' <;>
          simp [cfgLookup, List.filter, h, ih, hbk']

/-- The key-level semantics of `dict.update`: the environment file wins on
every key it carries, and the base value survives on every key it lacks. -/
theorem cfgLookup_dictUpdate (base env : ConfigDict) (k : String) :
    cfgLookup (dictUpdate base env) k =
      match cfgLookup env k with
      | some v => some v
      | none => cfgLookup base k := by
  unfold dictUpdate
  rw [cfgLookup_append, cfgLookup_map_update]
  cases hb : cfgLookup base k with
  | some v => cases he : cfgLookup env k <;> simp [he]
  | none =>
      rw [cfgLookup_filter_new base env k hb]
      cases he : cfgLookup env k <;> simp [he, hb]

/-! ## C2 — configuration precedence and merge -/

/-- Claim C2: `load_and_validate_config`: an explicit `config_path` takes
precedence — the directory/environment inputs play no role and the result is
exactly that file's (validated) contents; with only directory/environment
inputs, a key present in the environment file takes the environment file's
value and a key absent from it retains the base file's value. -/
theorem load_and_validate_config_precedence_and_merge :
    (∀ (cfg base₁ base₂ : ConfigDict) (env₁ env₂ : Option ConfigDict),
      load_and_validate_config (some cfg) base₁ env₁ =
        load_and_validate_config (some cfg) base₂ env₂) ∧
    (∀ (cfg base : ConfigDict) (envFile : Option ConfigDict) (out : ConfigDict),
      load_and_validate_config (some cfg) base envFile = .ok out → out = cfg) ∧
    (∀ (base env out : ConfigDict) (k : String),
      load_and_validate_config none base (some env) = .ok out →
      cfgLookup out k =
        match cfgLookup env k with
        | some v => some v
        | none => cfgLookup base k) := by
  refine ⟨fun cfg base₁ base₂ env₁ env₂ => rfl, ?_, ?_⟩
  · intro cfg base envFile out h
    unfold load_and_validate_config at h
    cases hv : validate_config cfg with
    | ok u => simp [hv] at h; exact h.symm
    | error e => simp [hv] at h
  · intro base env out k h
    unfold load_and_validate_config at h
    cases hv : validate_config (dictUpdate base env) with
    | ok u =>
        simp [hv] at h
        rw [← h, cfgLookup_dictUpdate]
    | error e => simp [hv] at h

/-- Concrete fixtures for the C2 witness. -/
def c2Cfg : ConfigDict :=
  [("key", .jstr "tok"), ("uuid", .jint 7), ("url", .jstr "https://x/")]

/-- Base config file fixture. -/
def c2Base : ConfigDict :=
  [("key", .jstr "basekey"), ("uuid", .jint 1), ("url", .jstr "https://base/"),
   ("timeout", .jint 30)]

/-- Environment config file fixture, overriding only `key`. -/
def c2Env : ConfigDict := [("key", .jstr "envkey")]

/-- Witness for C2 at concrete inputs: explicit-path precedence and both
merge directions (`key` overridden by the environment file, `timeout`
retained from the base file). -/
theorem load_and_validate_config_witness :
    (load_and_validate_config (some c2Cfg) c2Base (some c2Env) =
      load_and_validate_config (some c2Cfg) [] none) ∧
    (∀ out, load_and_validate_config (some c2Cfg) c2Base (some c2Env) = .ok out →
      out = c2Cfg) ∧
    (cfgLookup (dictUpdate c2Base c2Env) "key" =
      match cfgLookup c2Env "key" with
      | some v => some v
      | none => cfgLookup c2Base "key") ∧
    (cfgLookup (dictUpdate c2Base c2Env) "timeout" =
      match cfgLookup c2Env "timeout" with
      | some v => some v
      | none => cfgLookup c2Base "timeout") := by
  refine ⟨load_and_validate_config_precedence_and_merge.1 c2Cfg c2Base []
      (some c2Env) none,
    fun out h => load_and_validate_config_precedence_and_merge.2.1 c2Cfg c2Base
      (some c2Env) out h, ?_, ?_⟩
  · exact load_and_validate_config_precedence_and_merge.2.2 c2Base c2Env
      (dictUpdate c2Base c2Env) "key" (by rfl)
  · exact load_and_validate_config_precedence_and_merge.2.2 c2Base c2Env
      (dictUpdate c2Base c2Env) "timeout" (by rfl)

/-! ## C4 — bull/bear target defaulting -/

/-- Claim C4: `InvestmentRecommendation` construction without bull/bear targets
defaults them to 1.20× and 0.80× the base target (e.g. 300 → 360 / 240);
explicitly supplied non-zero values are left unchanged. -/
theorem investment_recommendation_target_defaults
    (bsr : BuySellRec) (stage : IdeaStage) (esg theme : String)
    (lp base bull bear : ℚ) (hbull : bull ≠ 0) (hbear : bear ≠ 0) :
    ((mkInvestmentRecommendation bsr stage esg theme lp base).bull_target =
        base * (12/10 : ℚ) ∧
      (mkInvestmentRecommendation bsr stage esg theme lp base).bear_target =
        base * (8/10 : ℚ)) ∧
    ((mkInvestmentRecommendation bsr stage esg theme lp 300).bull_target = 360 ∧
      (mkInvestmentRecommendation bsr stage esg theme lp 300).bear_target = 240) ∧
    ((mkInvestmentRecommendation bsr stage esg theme lp base bull bear).bull_target
        = bull ∧
      (mkInvestmentRecommendation bsr stage esg theme lp base bull bear).bear_target
        = bear) := by
  refine ⟨⟨?_, ?_⟩, ⟨?_, ?_⟩, ⟨?_, ?_⟩⟩ <;>
    simp [mkInvestmentRecommendation, hbull, hbear] <;> norm_num

/-- Witness for C4 at concrete inputs. -/
theorem investment_recommendation_target_defaults_witness :
    ((mkInvestmentRecommendation .buy .active "Leading" "Pricing Power"
        250 300).bull_target = 300 * (12/10 : ℚ) ∧
      (mkInvestmentRecommendation .buy .active "Leading" "Pricing Power"
        250 300).bear_target = 300 * (8/10 : ℚ)) ∧
    ((mkInvestmentRecommendation .buy .active "Leading" "Pricing Power"
        250 300).bull_target = 360 ∧
      (mkInvestmentRecommendation .buy .active "Leading" "Pricing Power"
        250 300).bear_target = 240) ∧
    ((mkInvestmentRecommendation .buy .active "Leading" "Pricing Power"
        250 300 355 245).bull_target = 355 ∧
      (mkInvestmentRecommendation .buy .active "Leading" "Pricing Power"
        250 300 355 245).bear_target = 245) :=
  investment_recommendation_target_defaults .buy .active "Leading"
    "Pricing Power" 250 300 355 245 (by norm_num) (by norm_num)

/-! ## C8 — zero acts as a sentinel, not a storable target -/

/-- Claim C8: Supplying `bull_target = 0.0` (or `bear_target = 0.0`) explicitly
does not store the zero: the constructed record carries 1.20× (0.80×) the
base target, exactly as if the value had not been supplied. -/
theorem investment_recommendation_zero_sentinel
    (bsr : BuySellRec) (stage : IdeaStage) (esg theme : String)
    (lp base bull bear : ℚ) :
    (mkInvestmentRecommendation bsr stage esg theme lp base 0 bear).bull_target =
      base * (12/10 : ℚ) ∧
    (mkInvestmentRecommendation bsr stage esg theme lp base bull 0).bear_target =
      base * (8/10 : ℚ) ∧
    mkInvestmentRecommendation bsr stage esg theme lp base 0 0 =
      mkInvestmentRecommendation bsr stage esg theme lp base := by
  refine ⟨?_, ?_, rfl⟩ <;> simp [mkInvestmentRecommendation]

/-! ## C1 — BBG_USER type/subtype validation -/

/-- Claim C1: `BBG_USER` construction: `type="WORKGROUPS"` with any subtype
other than `"UUID"` (including absent) fails; `type="PEOPLE"`/`"AUTHORS"`
with any non-absent subtype fails; `type="WORKGROUPS", subtype="UUID"`
succeeds for every description/key. -/
theorem bbg_user_type_subtype_validation (desc key : String)
    (md : Option String) (st : Option String) :
    (st ≠ some "UUID" →
      ∃ e, validate_BBG_USER desc key md "WORKGROUPS" st = .error e) ∧
    (∀ ty, (ty = "PEOPLE" ∨ ty = "AUTHORS") → ∀ s, st = some s →
      ∃ e, validate_BBG_USER desc key md ty st = .error e) ∧
    (validate_BBG_USER desc key md "WORKGROUPS" (some "UUID") =
      .ok { description := desc, key := key, metadata := md,
            subtype := some "UUID", type := "WORKGROUPS" }) := by
  refine ⟨?_, ?_, rfl⟩
  · intro hne
    cases st with
    | none => exact ⟨"WORKGROUPS type requires 'UUID' subtype", rfl⟩
    | some s =>
        by_cases hs : s = "UUID"
        · exact absurd (by rw [hs]) hne
        · refine ⟨"subtype: input should be UUID or None", ?_⟩
          show checkSubtypeUUID (some s) >>= _ = _
          rw [checkSubtypeUUID, if_neg hs]
          rfl
  · rintro ty (rfl | rfl) s rfl <;> by_cases hs : s = "UUID"
    · exact ⟨"PEOPLE type requires subtype to be None", by subst hs; rfl⟩
    · refine ⟨"subtype: input should be UUID or None", ?_⟩
      show checkSubtypeUUID (some s) >>= _ = _
      rw [checkSubtypeUUID, if_neg hs]
      rfl
    · exact ⟨"AUTHORS type requires subtype to be None", by subst hs; rfl⟩
    · refine ⟨"subtype: input should be UUID or None", ?_⟩
      show checkSubtypeUUID (some s) >>= _ = _
      rw [checkSubtypeUUID, if_neg hs]
      rfl

/-- Witness for C1 at concrete inputs: `WORKGROUPS` with absent subtype
fails, `PEOPLE` with subtype `"UUID"` fails, `WORKGROUPS`/`"UUID"`
succeeds. -/
theorem bbg_user_type_subtype_validation_witness :
    (∃ e, validate_BBG_USER "Research Team" "RSCH" none "WORKGROUPS" none =
      .error e) ∧
    (∃ e, validate_BBG_USER "Jane Doe" "Jane Doe" none "PEOPLE"
      (some "UUID") = .error e) ∧
    (validate_BBG_USER "Research Team" "RSCH" none "WORKGROUPS" (some "UUID") =
      .ok { description := "Research Team", key := "RSCH", metadata := none,
            subtype := some "UUID", type := "WORKGROUPS" }) :=
  ⟨(bbg_user_type_subtype_validation "Research Team" "RSCH" none none).1
      (by simp),
    (bbg_user_type_subtype_validation "Jane Doe" "Jane Doe" none
      (some "UUID")).2.1 "PEOPLE" (Or.inl rfl) "UUID" rfl,
    (bbg_user_type_subtype_validation "Research Team" "RSCH" none
      (some "UUID")).2.2⟩

/-! ## C10 — extra fields are forbidden on every wire entity -/

/-- The `checkNoExtra` fails whenever the item carries a key outside the five
declared field names. -/
theorem checkNoExtra_error_of_extra (d : EDict) (k : String)
    (hk : k ∈ d.map Prod.fst) (hnot : entityFieldNames.contains k = false) :
    checkNoExtra d = .error "extra inputs are not permitted" := by
  unfold checkNoExtra
  rw [if_neg]
  · rfl
  · intro hall
    obtain ⟨p, hp, hpk⟩ := List.mem_map.mp hk
    have := List.all_eq_true.mp hall p hp
    rw [hpk] at this
    have hni : k ∉ entityFieldNames := by simpa using hnot
    exact hni (by simpa using this)

/-- Claim C10: Every `BaseEntity`-derived wire record forbids extra fields:
an item carrying any key other than `description`, `key`, `metadata`,
`subtype`, `type` fails construction for all five entity models. -/
theorem entity_extra_fields_forbidden (d : EDict) (k : String)
    (hk : k ∈ d.map Prod.fst) (hnot : entityFieldNames.contains k = false) :
    (∃ e, CMTY.fromDict d = .error e) ∧
    (∃ e, BBG_USER.fromDict d = .error e) ∧
    (∃ e, BBG_SPDL.fromDict d = .error e) ∧
    (∃ e, TAGLIST.fromDict d = .error e) ∧
    (∃ e, NOTE_SECURITY.fromDict d = .error e) := by
  have hc := checkNoExtra_error_of_extra d k hk hnot
  have e1 : CMTY.fromDict d = .error "extra inputs are not permitted" := by
    show checkNoExtra d >>= _ = _
    rw [hc]; rfl
  have e2 : BBG_USER.fromDict d = .error "extra inputs are not permitted" := by
    show checkNoExtra d >>= _ = _
    rw [hc]; rfl
  have e3 : BBG_SPDL.fromDict d = .error "extra inputs are not permitted" := by
    show checkNoExtra d >>= _ = _
    rw [hc]; rfl
  have e4 : TAGLIST.fromDict d = .error "extra inputs are not permitted" := by
    show checkNoExtra d >>= _ = _
    rw [hc]; rfl
  have e5 : NOTE_SECURITY.fromDict d = .error "extra inputs are not permitted" := by
    show checkNoExtra d >>= _ = _
    rw [hc]; rfl
  exact ⟨⟨_, e1⟩, ⟨_, e2⟩, ⟨_, e3⟩, ⟨_, e4⟩, ⟨_, e5⟩⟩

/-- A platform item carrying an unexpected key, for the C10 witness. -/
def c10Item : EDict :=
  [("description", .pstr "Tech Community"), ("key", .pstr "Tech Community"),
   ("unexpectedPlatformKey", .pstr "surprise")]

/-- Witness for C10: the fixture item with an unexpected platform key fails
construction for all five entity models. -/
theorem entity_extra_fields_forbidden_witness :
    (∃ e, CMTY.fromDict c10Item = .error e) ∧
    (∃ e, BBG_USER.fromDict c10Item = .error e) ∧
    (∃ e, BBG_SPDL.fromDict c10Item = .error e) ∧
    (∃ e, TAGLIST.fromDict c10Item = .error e) ∧
    (∃ e, NOTE_SECURITY.fromDict c10Item = .error e) :=
  entity_extra_fields_forbidden c10Item "unexpectedPlatformKey" (by decide)
    (by decide)

/-! ## C9 — the bare ticker "CORP" trips an IndexError -/

/-- Claim C9: `find_corp_ticker`: an input that normalizes to the single token
`"CORP"` passes the format validation but then raises an `IndexError` while
extracting the base ticker — for every search oracle, i.e. before any
platform request matters — rather than the `ValidationError` used for
malformed tickers; every other single-token input extracts its base ticker
successfully. -/
theorem find_corp_ticker_corp_index_error (ticker tok : String)
    (h : pySplit (pyUpper ticker) = [tok]) :
    (tok = "CORP" →
      corp_ticker_base ticker = .error .indexError ∧
      ∀ search, find_corp_ticker search ticker = .error .indexError) ∧
    (tok ≠ "CORP" →
      corp_ticker_base ticker = .ok (pyUpper ticker, tok)) := by
  constructor
  · rintro rfl
    have hbase : corp_ticker_base ticker = .error .indexError := by
      unfold corp_ticker_base
      simp only [h]
      simp
    exact ⟨hbase, fun search => by
      unfold find_corp_ticker
      rw [hbase]
      rfl⟩
  · intro hne
    unfold corp_ticker_base
    simp only [h]
    simp [hne]

/-- Witness for C9: `"Corp"` (normalizing to the single token `"CORP"`)
raises `IndexError` for an arbitrary concrete oracle, while `"aapl"`
extracts base ticker `"AAPL"`. -/
theorem find_corp_ticker_corp_index_error_witness :
    (corp_ticker_base "Corp" = .error .indexError ∧
      find_corp_ticker (fun _ => []) "Corp" = .error .indexError) ∧
    corp_ticker_base "aapl" = .ok ("AAPL", "AAPL") := by
  refine ⟨?_, ?_⟩
  · have h := (find_corp_ticker_corp_index_error "Corp" "CORP" (by decide)).1 rfl
    exact ⟨h.1, h.2 (fun _ => [])⟩
  · exact (find_corp_ticker_corp_index_error "aapl" "AAPL" (by decide)).2
      (by decide)

/-! ## C3 — expected-return computation in `to_company_model_data` -/

/-- Company-info fixture shared by the C3 theorems. -/
def c3CompanyInfo : CompanyInfo :=
  { name := "Fixture Corp", country := "US", analyst := "Jane Doe",
    gics_sector := "Information Technology", gics_industry_group := "Software",
    gics_industry := "Systems Software", gics_sub_industry := "Systems Software",
    update_date := "01-15-2025" }

/-- Template-data fixture whose recommendation has a negative last price. -/
def c3DataNeg : CompanyModelTemplateData :=
  { company_info := c3CompanyInfo
    recommendation := mkInvestmentRecommendation .buy .active "Leading"
      "Pricing Power" (-100) 285 }

/-- Counterexample to C3 as stated: at `last_price = -100`,
`base_target = 285` the claimed formula `(target − last) / last` gives
`-3.85`, but the code computes the expected return as `0.0` (its guard is
`last_price > 0`, not `last_price ≠ 0`). -/
theorem to_company_model_data_counterexample :
    c3DataNeg.recommendation.last_price ≠ 0 ∧
    (c3DataNeg.to_company_model_data "15-Jan-25" "01/15/2025").target_price.base_exp_return
      = 0 ∧
    (c3DataNeg.recommendation.base_target - c3DataNeg.recommendation.last_price) /
        c3DataNeg.recommendation.last_price ≠ 0 := by
  refine ⟨by norm_num [c3DataNeg, mkInvestmentRecommendation], ?_, ?_⟩
  · norm_num [c3DataNeg, c3CompanyInfo, mkInvestmentRecommendation,
      CompanyModelTemplateData.to_company_model_data]
  · norm_num [c3DataNeg, mkInvestmentRecommendation]

/-- Claim C3, amended: `to_company_model_data` computes each scenario's
expected return as `(target − last_price) / last_price` when
`last_price > 0`, and as `0.0` whenever `last_price ≤ 0` (the code's guard is
positivity, so zero *and negative* last prices yield `0.0`); in particular
`last_price = 200`, `base_target = 285` yields `base_exp_return = 0.425`. -/
theorem to_company_model_data_expected_returns
    (data : CompanyModelTemplateData) (n1 n2 : String) :
    (data.recommendation.last_price > 0 →
      (data.to_company_model_data n1 n2).target_price.base_exp_return =
        (data.recommendation.base_target - data.recommendation.last_price) /
          data.recommendation.last_price ∧
      (data.to_company_model_data n1 n2).target_price.bull_exp_return =
        (data.recommendation.bull_target - data.recommendation.last_price) /
          data.recommendation.last_price ∧
      (data.to_company_model_data n1 n2).target_price.bear_exp_return =
        (data.recommendation.bear_target - data.recommendation.last_price) /
          data.recommendation.last_price) ∧
    (data.recommendation.last_price ≤ 0 →
      (data.to_company_model_data n1 n2).target_price.base_exp_return = 0 ∧
      (data.to_company_model_data n1 n2).target_price.bull_exp_return = 0 ∧
      (data.to_company_model_data n1 n2).target_price.bear_exp_return = 0) ∧
    (data.recommendation.last_price = 200 →
      data.recommendation.base_target = 285 →
      (data.to_company_model_data n1 n2).target_price.base_exp_return =
        (425/1000 : ℚ)) := by
  refine ⟨?_, ?_, ?_⟩
  · intro hpos
    simp [CompanyModelTemplateData.to_company_model_data, hpos]
  · intro hnonpos
    have hne : ¬ data.recommendation.last_price > 0 := not_lt.mpr hnonpos
    simp [CompanyModelTemplateData.to_company_model_data, hne]
  · intro hlp hbt
    have hpos : data.recommendation.last_price > 0 := by rw [hlp]; norm_num
    simp [CompanyModelTemplateData.to_company_model_data, hpos, hlp, hbt]
    norm_num

/-- Template-data fixture matching the claim's worked example
(`last_price = 200`, `base_target = 285`). -/
def c3DataPos : CompanyModelTemplateData :=
  { company_info := c3CompanyInfo
    recommendation := mkInvestmentRecommendation .buy .active "Leading"
      "Pricing Power" 200 285 }

/-- Witness for the amended C3 at the claim's worked example. -/
theorem to_company_model_data_expected_returns_witness :
    (c3DataPos.to_company_model_data "15-Jan-25" "01/15/2025").target_price.base_exp_return
        = (c3DataPos.recommendation.base_target - c3DataPos.recommendation.last_price) /
          c3DataPos.recommendation.last_price ∧
    (c3DataPos.to_company_model_data "15-Jan-25" "01/15/2025").target_price.base_exp_return
        = (425/1000 : ℚ) :=
  ⟨((to_company_model_data_expected_returns c3DataPos "15-Jan-25" "01/15/2025").1
      (by norm_num [c3DataPos, mkInvestmentRecommendation])).1,
    (to_company_model_data_expected_returns c3DataPos "15-Jan-25" "01/15/2025").2.2
      (by norm_num [c3DataPos, mkInvestmentRecommendation])
      (by norm_num [c3DataPos, mkInvestmentRecommendation])⟩

/-! ## C5 — batch upload returns one result per row -/

/-- Cardinality of a sum of list-multisets. -/
theorem card_sum_coe (L : List (List β)) :
    Multiset.card ((L.map fun b => ((b : List β) : Multiset β)).sum) =
      (L.map List.length).sum := by
  induction L with
  | nil => simp
  | cons x xs ih => simp [ih]

/-- Chunking partitions the list: the chunk lengths sum to the original
length. -/
theorem chunksPos_length_sum (b : Nat) (l : List α) :
    ((chunksPos b l).map List.length).sum = l.length := by
  induction l using chunksPos.induct b with
  | case1 => simp [chunksPos]
  | case2 x xs ih =>
      rw [chunksPos]
      simp only [List.map_cons, List.sum_cons, ih]
      simp [List.length_take, List.length_drop]
      omega

/-- Claim C5: for an input dataframe with the required columns and any
`max_workers ≥ 1`, `batch_size ≥ 1`, `batch_upload_cde` succeeds and returns
exactly one `CDEUploadResult` per input row — `N` results in total, with
(successful count) + (failed count) = `N`; per-row request failures are
absorbed into failed results, never propagated. -/
theorem batch_upload_cde_result_counts
    (net : CDERequestBody → Except String Unit) (st : CDEUploaderState)
    (df : DataFrame) (max_workers batch_size : Nat)
    (hcols : (["parsekey", "field", "date", "value"].all fun col =>
      df.columns.contains col) = true)
    (hmw : 1 ≤ max_workers) (hbs : 1 ≤ batch_size) :
    ∃ rs, batch_upload_cde net st df max_workers batch_size = .ok rs ∧
      Multiset.card rs = df.rows.length ∧
      Multiset.countP (fun r => r.success = true) rs +
        Multiset.countP (fun r => r.success = false) rs = df.rows.length := by
  have hcard : ∀ (g : CDERow → CDEUploadResult) (b : Nat),
      Multiset.card (((chunksPos b df.rows).map fun batch =>
        ((batch.map g : List CDEUploadResult) : Multiset CDEUploadResult)).sum) =
      df.rows.length := by
    intro g b
    have h := card_sum_coe ((chunksPos b df.rows).map fun batch => batch.map g)
    rw [List.map_map, List.map_map] at h
    simp only [Function.comp_def] at h
    calc Multiset.card (((chunksPos b df.rows).map fun batch =>
          ((batch.map g : List CDEUploadResult) : Multiset CDEUploadResult)).sum)
        = ((chunksPos b df.rows).map fun batch => (batch.map g).length).sum := h
      _ = ((chunksPos b df.rows).map List.length).sum := by
          apply congrArg
          apply List.map_congr_left
          intro batch _
          simp
      _ = df.rows.length := chunksPos_length_sum b df.rows
  refine ⟨((chunksPos (batch_size - 1) df.rows).map fun batch =>
      ((batch.map fun row => upload_single_cde net (build_request_body st row) :
        List CDEUploadResult) : Multiset CDEUploadResult)).sum, ?_, ?_, ?_⟩
  · unfold batch_upload_cde
    rw [if_neg (not_not_intro hcols), if_neg (by omega),
      if_neg (by rintro ⟨h0, -⟩; omega)]
  · exact hcard _ _
  · set rs := ((chunksPos (batch_size - 1) df.rows).map fun batch =>
      ((batch.map fun row => upload_single_cde net (build_request_body st row) :
        List CDEUploadResult) : Multiset CDEUploadResult)).sum with hrs
    have hsplit := Multiset.card_eq_countP_add_countP
      (p := fun r : CDEUploadResult => r.success = true) rs
    have hneg : Multiset.countP
        (fun r : CDEUploadResult => ¬ r.success = true) rs =
        Multiset.countP (fun r : CDEUploadResult => r.success = false) rs := by
      apply Multiset.countP_congr rfl
      intro x _
      simp
    rw [hneg] at hsplit
    rw [← hsplit, hrs, hcard _ _]

/-- Oracle fixture for the C5 witness: rows keyed `"FAIL"` raise, everything
else succeeds. -/
def c5Net (r : CDERequestBody) : Except String Unit :=
  if r.parsekey = "FAIL" then .error "ConnectionError: boom" else .ok ()

/-- Client-state fixture for the C5 witness. -/
def c5State : CDEUploaderState :=
  { apiKey := "tok", uuid := 7, url := "https://rms.example",
    synchronizerToken := "sync-t", synchronizerUri := "sync-u" }

/-- Dataframe fixture for the C5 witness: three rows (one failing), extra
column present. -/
def c5Df : DataFrame :=
  { columns := ["parsekey", "field", "date", "value", "extra"]
    rows :=
      [{ parsekey := "AAPL US Equity", field := "U1R2I", date := "20250115",
          value := .jstr "Buy" },
        { parsekey := "FAIL", field := "U1R2J", date := "20250115",
          value := .jnum 285 },
        { parsekey := "MSFT US Equity", field := "U1R2I", date := "20250115",
          value := .jstr "Hold" }] }

/-- Witness for C5: three rows, batch size 2, four workers — three results,
successes plus failures equal three. -/
theorem batch_upload_cde_result_counts_witness :
    ∃ rs, batch_upload_cde c5Net c5State c5Df 4 2 = .ok rs ∧
      Multiset.card rs = c5Df.rows.length ∧
      Multiset.countP (fun r => r.success = true) rs +
        Multiset.countP (fun r => r.success = false) rs = c5Df.rows.length :=
  batch_upload_cde_result_counts c5Net c5State c5Df 4 2 (by decide)
    (by decide) (by decide)

/-! ## C6 — construction-time authentication handshakes -/

/-- Configuration fixture for the C6 counterexample and witness. -/
def c6Cfg : RmsConfig :=
  { key := "sessiontoken", uuid := 42, url := "https://rms.bloomberg.com" }

/-- Counterexample to C6 as stated: `RMSBQL`'s credential-building issues no
HTTP request at all at construction — in particular no GET to a synchronizer
endpoint — and its stored state has no synchronizer token/URI fields; only
the session cookie is set. -/
theorem rmsbql_no_handshake_counterexample :
    RMSBQL_constructionRequests c6Cfg = [] ∧
    RMSBQL_init c6Cfg =
      { apiKey := "sessiontoken", uuid := 42,
        url := "https://rms.bloomberg.com",
        cookieHeader := "BBCLIPSESSION=sessiontoken" } := ⟨rfl, rfl⟩

/-- Claim C6, amended: three of the four clients (`DocumentRetriever`,
`CDEUploader`, `NotePublisher`) perform the one-time handshake at
construction — after loading configuration each issues exactly one GET to its
synchronizer endpoint and stores the returned synchronizer token/URI — but
`RMSBQL` does not: its credential-building issues no request and stores only
the api key, uuid, url and session cookie. -/
theorem client_construction_handshakes (cfg : RmsConfig) (toks : SyncTokens) :
    (DocumentRetriever_constructionRequests cfg =
        [{ method := "GET", url := cfg.url ++ "upload/synchronizer" }] ∧
      (DocumentRetriever_init cfg toks).synchronizerToken =
        toks.synchronizerToken ∧
      (DocumentRetriever_init cfg toks).synchronizerUri =
        toks.synchronizerUri) ∧
    (CDEUploader_constructionRequests cfg =
        [{ method := "GET", url := cfg.url ++ "/upload/synchronizer" }] ∧
      (CDEUploader_init cfg toks).synchronizerToken = toks.synchronizerToken ∧
      (CDEUploader_init cfg toks).synchronizerUri = toks.synchronizerUri) ∧
    (NotePublisher_constructionRequests cfg =
        [{ method := "GET", url := np_sync_url cfg.url }] ∧
      (strContains (np_normalized_url cfg.url) "ClipServ" = false →
        np_sync_url cfg.url =
          np_normalized_url cfg.url ++ "ClipServ/upload/synchronizer") ∧
      (NotePublisher_init cfg toks).synchronizer_token =
        toks.synchronizerToken ∧
      (NotePublisher_init cfg toks).synchronizer_uri = toks.synchronizerUri) ∧
    (RMSBQL_constructionRequests cfg = [] ∧
      RMSBQL_init cfg =
        RMSBQLState.mk cfg.key cfg.uuid cfg.url
          ("BBCLIPSESSION=" ++ cfg.key)) := by
  refine ⟨⟨rfl, rfl, rfl⟩, ⟨rfl, rfl, rfl⟩, ⟨rfl, ?_, rfl, rfl⟩, rfl, rfl⟩
  intro hfalse
  unfold np_sync_url
  rw [if_neg (by simp [hfalse])]

/-- Witness for the amended C6 at concrete inputs. -/
theorem client_construction_handshakes_witness :
    (DocumentRetriever_constructionRequests c6Cfg =
        [{ method := "GET",
           url := "https://rms.bloomberg.com" ++ "upload/synchronizer" }] ∧
      (DocumentRetriever_init c6Cfg
        { synchronizerToken := "T", synchronizerUri := "U" }).synchronizerToken
        = "T") ∧
    (np_sync_url c6Cfg.url =
      np_normalized_url c6Cfg.url ++ "ClipServ/upload/synchronizer") ∧
    RMSBQL_constructionRequests c6Cfg = [] := by
  have h := client_construction_handshakes c6Cfg
    { synchronizerToken := "T", synchronizerUri := "U" }
  exact ⟨⟨h.1.1, h.1.2.1⟩, h.2.2.1.2.1 (by decide), h.2.2.2.1⟩

/-! ## C7 — the note-creation call is a POST, not a GET -/

/-- NotePublisher state fixture for the C7 counterexample and witness. -/
def c7State : NotePublisherState :=
  { apiKey := "sessiontoken", uuid := 42, url := "https://rms.bloomberg.com/",
    synchronizer_token := "sync-token", synchronizer_uri := "/sync-uri" }

/-- Counterexample to C7 as stated: the note-creation call is not an HTTP
GET — `create_note` sends the constructed URL with `session.post`. -/
theorem create_note_not_get_counterexample :
    (create_note_request c7State "Title" "Body" 1736899200000 [] [] []
      none).method ≠ "GET" := by decide

/-- Claim C7, amended: `create_note` issues the note-creation call as an HTTP
POST (not GET) to `{base}ClipServ/upload/createNote` (the routing segment
inserted only when the base URL lacks it), with the uuid, the percent-encoded
JSON note document, and the synchronizer token and URI carried as URL query
parameters and no request body. -/
theorem create_note_request_shape (st : NotePublisherState)
    (title body : String) (as_of_date : Int) (tags share_with : List WireEntity)
    (attachment_ids : List String) (html_body : Option String) :
    (create_note_request st title body as_of_date tags share_with
      attachment_ids html_body).method = "POST" ∧
    (strContains st.url "ClipServ" = false →
      (create_note_request st title body as_of_date tags share_with
        attachment_ids html_body).url =
      st.url ++ "ClipServ/upload/createNote" ++ "?" ++
        "uuid=" ++ toString st.uuid ++ "&" ++
        "doc=" ++ pyQuote (create_note_payload title body as_of_date tags
          share_with attachment_ids html_body).dumps ++ "&" ++
        "SYNCHRONIZER_TOKEN=" ++ st.synchronizer_token ++ "&" ++
        "SYNCHRONIZER_URI=" ++ st.synchronizer_uri) ∧
    (strContains st.url "ClipServ" = true →
      (create_note_request st title body as_of_date tags share_with
        attachment_ids html_body).url =
      st.url ++ "upload/createNote" ++ "?" ++
        "uuid=" ++ toString st.uuid ++ "&" ++
        "doc=" ++ pyQuote (create_note_payload title body as_of_date tags
          share_with attachment_ids html_body).dumps ++ "&" ++
        "SYNCHRONIZER_TOKEN=" ++ st.synchronizer_token ++ "&" ++
        "SYNCHRONIZER_URI=" ++ st.synchronizer_uri) := by
  refine ⟨rfl, ?_, ?_⟩
  · intro hfalse
    unfold create_note_request create_note_base_url
    rw [if_neg (by simp [hfalse])]
  · intro htrue
    unfold create_note_request create_note_base_url
    rw [if_pos (by simp [htrue])]

/-- Witness for the amended C7 at concrete inputs (base URL without the
routing segment). -/
theorem create_note_request_shape_witness :
    (create_note_request c7State "Title" "Body" 1736899200000 [] [] []
      none).method = "POST" ∧
    (create_note_request c7State "Title" "Body" 1736899200000 [] [] []
      none).url =
      c7State.url ++ "ClipServ/upload/createNote" ++ "?" ++
        "uuid=" ++ toString c7State.uuid ++ "&" ++
        "doc=" ++ pyQuote (create_note_payload "Title" "Body" 1736899200000
          [] [] [] none).dumps ++ "&" ++
        "SYNCHRONIZER_TOKEN=" ++ c7State.synchronizer_token ++ "&" ++
        "SYNCHRONIZER_URI=" ++ c7State.synchronizer_uri := by
  have h := create_note_request_shape c7State "Title" "Body" 1736899200000
    [] [] [] none
  exact ⟨h.1, h.2.1 (by decide)⟩

end RMS
